import Mathlib

/-!
Shallow embedding of the retwist repository (two Python modules) for
specification checking:

* `retwist/util/wait_on_shutdown.py` — the graceful-shutdown / drain
  coordinator.  Its mutable state (the set of running request hashes, the
  local `timeout_deferred`, the scheduler queue filled by
  `reactor.callLater`, the log) is modelled as an explicit record
  `ShutdownState`; each closure of the module becomes a state-passing
  function.  A Twisted `Deferred` is a one-shot cell: a second call of
  `Deferred.callback` raises `twisted.internet.defer.AlreadyCalledError`.
  Python set operations keep Python semantics: `set.remove` raises
  `KeyError` on an absent element, `set.add` is a silent no-op on a
  present one.  Exceptions are modelled by returning the state reached at
  the raise point together with `Option PyError` (side effects performed
  before the raise are kept, as in Python).

* `retwist/param.py` — the parameter-validation classes.  Decoded byte
  strings are modelled as `String`; `twisted.web.error.Error` becomes the
  record `WebError`.
-/

set_option autoImplicit false

namespace Retwist

/-- Python exceptions raised by the code paths modelled here. -/
inductive PyError where
  | alreadyCalledError
  | keyError
  deriving Repr, DecidableEq

/-- A Twisted `Deferred`, restricted to what `wait_on_shutdown` uses: a
one-shot result cell.  `result = none` means the deferred has not fired. -/
structure Deferred where
  result : Option Bool
  deriving Repr, DecidableEq

/-- `Deferred()` — a fresh, unfired deferred. -/
def Deferred.mk0 : Deferred := ⟨Option.none⟩

/-- `d.called` in Twisted: whether the deferred has fired. -/
def Deferred.called (d : Deferred) : Bool := d.result.isSome

/-- `d.callback(v)`: records the result and fires; raises
`AlreadyCalledError` when the deferred has already fired. -/
def Deferred.callback (d : Deferred) (v : Bool) : Except PyError Deferred :=
  if d.called then Except.error PyError.alreadyCalledError
  else Except.ok ⟨Option.some v⟩

/-- Level of a `logging` call. -/
inductive LogLevel where
  | info
  | warning
  deriving Repr, DecidableEq

/-- One `logging.info` / `logging.warning` call: the format string and, when
the call interpolates `len(running_reqs)`, that count. -/
structure LogEntry where
  level : LogLevel
  msg : String
  count : Option Nat
  deriving Repr, DecidableEq

/-- The two callbacks `wait_on_shutdown` hands to `reactor.callLater`. -/
inductive Callback where
  | killTimeout
  | killIfRequestsDone
  deriving Repr, DecidableEq

/-- Mutable state of one `wait_on_shutdown` installation:
`running_reqs` (the module-level set of `id(req)` hashes),
the local `timeout_deferred` of `shutdown`, the deferred returned by
`port.stopListening()`, the reactor clock and its `callLater` queue
(absolute firing time, callback), and the log. -/
structure ShutdownState where
  running_reqs : Finset Nat
  timeout_deferred : Deferred
  close_conn : Deferred
  now : Nat
  pending : List (Nat × Callback)
  log : List LogEntry
  deriving DecidableEq

/-- Append one log record. -/
def logMsg (st : ShutdownState) (level : LogLevel) (msg : String)
    (count : Option Nat) : ShutdownState :=
  { st with log := st.log ++ [⟨level, msg, count⟩] }

/-- `reactor.callLater(delay, cb)`: enqueue `cb` at time `now + delay`. -/
def callLater (st : ShutdownState) (delay : Nat) (cb : Callback) :
    ShutdownState :=
  { st with pending := st.pending ++ [(st.now + delay, cb)] }

/-- Python `set.add`: inserts the element; silently a no-op when it is
already present (never an error). -/
def set_add (s : Finset Nat) (x : Nat) : Finset Nat := insert x s

/-- Python `set.remove`: removes the element, raising `KeyError` when it is
absent. -/
def set_remove (s : Finset Nat) (x : Nat) : Except PyError (Finset Nat) :=
  if x ∈ s then Except.ok (s.erase x) else Except.error PyError.keyError

/-- `remove_req(_, req_hash)` — the `notifyFinish` callback:
`running_reqs.remove(req_hash)`. -/
def remove_req (st : ShutdownState) (req_hash : Nat) :
    ShutdownState × Option PyError :=
  match set_remove st.running_reqs req_hash with
  | Except.ok s => ({ st with running_reqs := s }, Option.none)
  | Except.error e => (st, Option.some e)

/-- `request_factory(*args, **kwargs)` restricted to its effect on the
tracker: builds the request (opaque here, identified by `req_hash =
id(req)`), does `running_reqs.add(req_hash)` and registers `remove_req` on
`notifyFinish`.  No step of it can raise on the tracking side. -/
def request_factory (st : ShutdownState) (req_hash : Nat) :
    ShutdownState × Option PyError :=
  ({ st with running_reqs := set_add st.running_reqs req_hash }, Option.none)

/-- `kill_timeout()`: log a warning with the outstanding count, then
`timeout_deferred.callback(True)`. -/
def kill_timeout (st : ShutdownState) : ShutdownState × Option PyError :=
  let st := logMsg st LogLevel.warning "Timeout reached, canceling %s requests"
    (Option.some st.running_reqs.card)
  match st.timeout_deferred.callback true with
  | Except.ok d => ({ st with timeout_deferred := d }, Option.none)
  | Except.error e => (st, Option.some e)

/-- `kill_if_requests_done()`: if `running_reqs` is empty, log and fire
`timeout_deferred`; otherwise log and reschedule itself after 5 seconds. -/
def kill_if_requests_done (st : ShutdownState) :
    ShutdownState × Option PyError :=
  if st.running_reqs = ∅ then
    let st := logMsg st LogLevel.info "No pending requests, shutting down!"
      Option.none
    match st.timeout_deferred.callback true with
    | Except.ok d => ({ st with timeout_deferred := d }, Option.none)
    | Except.error e => (st, Option.some e)
  else
    let st := logMsg st LogLevel.info "%s requests still running, waiting ..."
      (Option.some st.running_reqs.card)
    (callLater st 5 Callback.killIfRequestsDone, Option.none)

/-- Dispatch of a scheduled callback when the reactor runs it. -/
def runCallback (cb : Callback) (st : ShutdownState) :
    ShutdownState × Option PyError :=
  match cb with
  | Callback.killTimeout => kill_timeout st
  | Callback.killIfRequestsDone => kill_if_requests_done st

/-- `shutdown()` — the `before shutdown` trigger: log, create a fresh
`timeout_deferred`, schedule `kill_timeout` after `timeout`, record the
deferred returned by `port.stopListening()` (an external operation, passed
in), and immediately run `kill_if_requests_done()` synchronously.  The
function returns `DeferredList([timeout_deferred, close_conn_deferred])`;
the firing condition of that value is `shutdownComplete` below. -/
def shutdown (timeout : Nat) (close_conn_deferred : Deferred)
    (st : ShutdownState) : ShutdownState × Option PyError :=
  let st := logMsg st LogLevel.info "Shutdown requested" Option.none
  let st := { st with timeout_deferred := Deferred.mk0 }
  let st := callLater st timeout Callback.killTimeout
  let st := { st with close_conn := close_conn_deferred }
  kill_if_requests_done st

/-- A Twisted `DeferredList` with default flags fires once every listed
deferred has fired. -/
def deferredList_fired (ds : List Deferred) : Bool :=
  ds.all (fun d => d.called)

/-- Firing of the `DeferredList([timeout_deferred, close_conn_deferred])`
that `shutdown` returns: the reactor proceeds with shutdown only once it
has fired. -/
def shutdownComplete (st : ShutdownState) : Bool :=
  deferredList_fired [st.timeout_deferred, st.close_conn]

/-! ### `retwist/param.py` -/

/-- A Python value as far as `param.py` observes it: `None`, an `int`, a
`str`, or a `bool`.  Needed because `Param.default` may be any value and
the code distinguishes identity with `None` from truthiness. -/
inductive PyVal where
  | none
  | int (n : Int)
  | str (s : String)
  | bool (b : Bool)
  deriving Repr, DecidableEq

/-- Python truthiness of a `PyVal` (`bool(v)`). -/
def PyVal.truthy : PyVal → Bool
  | PyVal.none => false
  | PyVal.int n => n ≠ 0
  | PyVal.str s => s ≠ ""
  | PyVal.bool b => b

/-- `twisted.web.http.BAD_REQUEST`. -/
def BAD_REQUEST : Nat := 400

/-- `twisted.web.error.Error(status, message)`. -/
structure WebError where
  status : Nat
  message : String
  deriving Repr, DecidableEq

/-- A `Param` instance after construction: the `required` flag and the
`default` value. -/
structure Param where
  required : Bool
  default : PyVal
  deriving Repr, DecidableEq

/-- `Param.__init__(required, default)`: raises
`ValueError("Required parameters cannot have a default")` when `required`
holds and `default` is truthy; otherwise stores both attributes.  (The
source tests `if required and default`, i.e. truthiness, not `is not
None`.) -/
def Param.init (required : Bool) (default : PyVal) : Except String Param :=
  if required && default.truthy then
    Except.error "Required parameters cannot have a default"
  else Except.ok ⟨required, default⟩

/-- A Twisted request as `param.py` reads it: the decoded query arguments,
one list of values per name (`request.args`). -/
structure Request where
  args : String → Option (List String)

/-- `Param.parse_from_request(name, request)` for the base class (whose
`parse` is `val.decode()`): absent name falls through default / required /
None handling; a present name must map to exactly one value. -/
def Param.parse_from_request (p : Param) (name : String) (request : Request) :
    Except WebError PyVal :=
  match request.args name with
  | Option.none =>
      if p.default ≠ PyVal.none then Except.ok p.default
      else if p.required then
        Except.error ⟨BAD_REQUEST, name ++ " is required"⟩
      else Except.ok PyVal.none
  | Option.some vals =>
      match vals with
      | [v] => Except.ok (PyVal.str v)
      | _ => Except.error ⟨BAD_REQUEST, "Pass exactly one argument for " ++ name⟩

/-- `BoolParam.parse(val)` on the decoded string.  The source guard
`val_str is None or val_str == "false"` reduces to the equality test:
`bytes.decode` never returns `None`. -/
def BoolParam.parse (val : String) : Except WebError Bool :=
  if val = "false" then Except.ok false
  else if val = "true" then Except.ok true
  else Except.error ⟨BAD_REQUEST, "Boolean parameter must be true or false"⟩

/-- Python `str.split(".")` on the character list of the decoded value:
splits at every dot, keeping empty parts. -/
def pySplitDot : List Char → List (List Char)
  | [] => [[]]
  | c :: rest =>
      if c = '.' then [] :: pySplitDot rest
      else
        match pySplitDot rest with
        | [] => [[c]]
        | p :: ps => (c :: p) :: ps

/-- Numeric value of a decimal digit run (the value `int` computes). -/
def digitsVal (cs : List Char) : Nat :=
  cs.foldl (fun a c => 10 * a + (c.toNat - 48)) 0

/-- `int(s)` on a plain decimal literal: a nonempty digit run yields its
value.  (Full Python `int` also strips surrounding whitespace and accepts
underscore separators; those inputs are outside every claim here.) -/
def digitsToNat (cs : List Char) : Option Nat :=
  if cs ≠ [] ∧ cs.all Char.isDigit then Option.some (digitsVal cs)
  else Option.none

/-- `int(s)` with an optional leading sign, `ValueError` as `none`. -/
def pyIntChars : List Char → Option Int
  | [] => Option.none
  | c :: cs =>
      if c = '-' then (digitsToNat cs).map (fun n => -(Int.ofNat n))
      else if c = '+' then (digitsToNat cs).map Int.ofNat
      else (digitsToNat (c :: cs)).map Int.ofNat

/-- `VersionParam.parse(val)`: `tuple(map(int, val_str.split(".")))`, with
`TypeError`/`ValueError` turned into a 400 `Error`.  The tuple is modelled
as a `List Int`; Python compares tuples of ints lexicographically with
length as tie-break, which is `List.Lex (· < ·)`. -/
def VersionParam.parse (val : String) : Except WebError (List Int) :=
  match (pySplitDot val.toList).mapM pyIntChars with
  | Option.some ns => Except.ok ns
  | Option.none => Except.error ⟨BAD_REQUEST, "Invalid version literal"⟩

/-- A version literal presented as its dot-separated components, each a
nonempty run of decimal digits. -/
def VersionChars (ns : List (List Char)) : Prop :=
  ns ≠ [] ∧ ∀ p ∈ ns, p ≠ [] ∧ ∀ c ∈ p, c.isDigit

instance : DecidablePred VersionChars := fun ns => by
  unfold VersionChars; infer_instance

/-- Join version components with dots (the shape of the input byte
string). -/
def joinDots : List (List Char) → List Char
  | [] => []
  | [p] => p
  | p :: ps => p ++ '.' :: joinDots ps

/-- The input string whose components are `ns`. -/
def renderVersionChars (ns : List (List Char)) : String :=
  String.mk (joinDots ns)

/-- The numeric components of a version literal — the "tuple of integer
components" the spec sentence speaks of. -/
def versionValue (ns : List (List Char)) : List Int :=
  ns.map (fun p => Int.ofNat (digitsVal p))

/-- The componentwise, length-breaking numeric order on versions: compare
component by component, a strict prefix preceding every extension. -/
def numericVersionLt : List Nat → List Nat → Prop
  | _, [] => False
  | [], _ :: _ => True
  | a :: as, b :: bs => a < b ∨ (a = b ∧ numericVersionLt as bs)

/-! ### Concrete states used to instantiate the theorems -/

/-- A pre-shutdown state with no tracked requests. -/
def idleState : ShutdownState := ⟨∅, Deferred.mk0, Deferred.mk0, 0, [], []⟩

/-- A state with one tracked request (hash 3) and an unresolved signal. -/
def busyState : ShutdownState := ⟨{3}, Deferred.mk0, Deferred.mk0, 0, [], []⟩

/-- A state whose completion signal has already resolved while two
requests are still tracked. -/
def resolvedBusyState : ShutdownState :=
  ⟨{1, 2}, ⟨Option.some true⟩, Deferred.mk0, 20, [], []⟩

/-- A state whose completion signal has already resolved with no tracked
requests left. -/
def resolvedIdleState : ShutdownState :=
  ⟨∅, ⟨Option.some true⟩, Deferred.mk0, 20, [], []⟩

/-- A request carrying no query arguments. -/
def emptyRequest : Request := ⟨fun _ => Option.none⟩

/-! ### Helper lemmas -/

theorem pySplitDot_no_dot (p : List Char) (h : '.' ∉ p) :
    pySplitDot p = [p] := by
  induction p with
  | nil => rfl
  | cons c rest ih =>
      have hc : ¬(c = '.') := by
        intro hh
        exact h (hh ▸ List.mem_cons_self c rest)
      have hr : '.' ∉ rest := fun hh => h (List.mem_cons_of_mem c hh)
      simp [pySplitDot, hc, ih hr]

theorem pySplitDot_append (p t : List Char) (h : '.' ∉ p) :
    pySplitDot (p ++ '.' :: t) = p :: pySplitDot t := by
  induction p with
  | nil => simp [pySplitDot]
  | cons c rest ih =>
      have hc : ¬(c = '.') := by
        intro hh
        exact h (hh ▸ List.mem_cons_self c rest)
      have hr : '.' ∉ rest := fun hh => h (List.mem_cons_of_mem c hh)
      simp [pySplitDot, hc, ih hr]

theorem pySplitDot_joinDots (ns : List (List Char)) (h1 : ns ≠ [])
    (h2 : ∀ p ∈ ns, '.' ∉ p) : pySplitDot (joinDots ns) = ns := by
  induction ns with
  | nil => exact absurd rfl h1
  | cons p ps ih =>
      cases ps with
      | nil =>
          simpa [joinDots] using
            pySplitDot_no_dot p (h2 p (List.mem_cons_self p []))
      | cons q qs =>
          have hp : '.' ∉ p := h2 p (List.mem_cons_self p (q :: qs))
          have hqs : ∀ r ∈ q :: qs, '.' ∉ r :=
            fun r hr => h2 r (List.mem_cons_of_mem p hr)
          calc pySplitDot (joinDots (p :: q :: qs))
              = pySplitDot (p ++ '.' :: joinDots (q :: qs)) := rfl
            _ = p :: pySplitDot (joinDots (q :: qs)) := pySplitDot_append _ _ hp
            _ = p :: (q :: qs) := by rw [ih (by simp) hqs]

theorem pyIntChars_digits (p : List Char) (h1 : p ≠ [])
    (h2 : ∀ c ∈ p, c.isDigit) :
    pyIntChars p = Option.some (Int.ofNat (digitsVal p)) := by
  match p, h1 with
  | c :: cs, _ =>
    have hc : c.isDigit := h2 c (List.mem_cons_self c cs)
    have hminus : ¬(c = '-') := by
      intro hh
      rw [hh] at hc
      exact absurd hc (by decide)
    have hplus : ¬(c = '+') := by
      intro hh
      rw [hh] at hc
      exact absurd hc (by decide)
    have hall : (c :: cs).all Char.isDigit = true :=
      List.all_eq_true.mpr (fun x hx => h2 x hx)
    simp [pyIntChars, hminus, hplus, digitsToNat, hall]

theorem mapM_pyIntChars (ns : List (List Char))
    (h : ∀ p ∈ ns, p ≠ [] ∧ ∀ c ∈ p, c.isDigit) :
    ns.mapM pyIntChars = Option.some (versionValue ns) := by
  induction ns with
  | nil => rfl
  | cons p ps ih =>
      have hp := h p (List.mem_cons_self p ps)
      have hps := fun q hq => h q (List.mem_cons_of_mem p hq)
      rw [List.mapM_cons, pyIntChars_digits p hp.1 hp.2, ih hps]
      simp [versionValue]

theorem versionParse_render (ns : List (List Char)) (h : VersionChars ns) :
    VersionParam.parse (renderVersionChars ns) = Except.ok (versionValue ns) := by
  obtain ⟨h1, h2⟩ := h
  have hdot : ∀ p ∈ ns, '.' ∉ p := by
    intro p hp hdp
    exact absurd ((h2 p hp).2 '.' hdp) (by decide)
  unfold VersionParam.parse
  rw [show (renderVersionChars ns).toList = joinDots ns from rfl,
    pySplitDot_joinDots ns h1 hdot, mapM_pyIntChars ns h2]

theorem lex_cons_cons_iff {a b : Int} {l1 l2 : List Int} :
    List.Lex (fun x y : Int => x < y) (a :: l1) (b :: l2) ↔
      a < b ∨ (a = b ∧ List.Lex (fun x y : Int => x < y) l1 l2) := by
  constructor
  · intro h
    cases h with
    | rel h => exact Or.inl h
    | cons h => exact Or.inr ⟨rfl, h⟩
  · rintro (h | ⟨rfl, h⟩)
    · exact List.Lex.rel h
    · exact List.Lex.cons h

theorem lex_intCast_iff (as bs : List Nat) :
    List.Lex (fun x y : Int => x < y) (as.map Int.ofNat)
      (bs.map Int.ofNat) ↔ numericVersionLt as bs := by
  induction as generalizing bs with
  | nil =>
      cases bs with
      | nil =>
          simp only [List.map_nil, numericVersionLt]
          exact ⟨fun h => List.Lex.not_nil_right _ _ h, fun h => h.elim⟩
      | cons b bs =>
          simp only [List.map_nil, List.map_cons, numericVersionLt]
          exact ⟨fun _ => trivial, fun _ => List.Lex.nil⟩
  | cons a as ih =>
      cases bs with
      | nil =>
          simp only [List.map_cons, List.map_nil, numericVersionLt]
          exact ⟨fun h => List.Lex.not_nil_right _ _ h, fun h => h.elim⟩
      | cons b bs =>
          simp only [List.map_cons, numericVersionLt]
          rw [lex_cons_cons_iff]
          constructor
          · rintro (h | ⟨heq, h⟩)
            · exact Or.inl (Int.ofNat_lt.mp h)
            · exact Or.inr ⟨Int.ofNat.inj heq, (ih bs).mp h⟩
          · rintro (h | ⟨rfl, h⟩)
            · exact Or.inl (Int.ofNat_lt.mpr h)
            · exact Or.inr ⟨rfl, (ih bs).mpr h⟩

theorem versionValue_eq_map (ns : List (List Char)) :
    versionValue ns = (ns.map digitsVal).map Int.ofNat := by
  simp [versionValue, List.map_map]

/-! ### Claim theorems -/

/-- C1 (counterexample): one real execution of the shutdown sequence in
which the second resolution attempt raises instead of being silently
ignored.  `shutdown` on an idle tracker resolves the signal through the
drain-complete path at once; the timeout timer that the same call
scheduled (and never cancels) then fires and its resolution attempt
raises `AlreadyCalledError`, so subsequent attempts are not silently
ignored. -/
theorem c1_second_resolve_raises :
    (shutdown 10 Deferred.mk0 idleState).2 = Option.none ∧
    (shutdown 10 Deferred.mk0 idleState).1.timeout_deferred.result =
      Option.some true ∧
    (shutdown 10 Deferred.mk0 idleState).1.pending =
      [(10, Callback.killTimeout)] ∧
    (runCallback Callback.killTimeout
      (shutdown 10 Deferred.mk0 idleState).1).2 =
        Option.some PyError.alreadyCalledError := by decide

/-- C1 (amended): the first resolution of the completion signal — from
either the timeout path or the drain-complete path — records the outcome
and fires the deferred; every subsequent resolution attempt raises
`AlreadyCalledError` (rather than being silently ignored) and leaves the
recorded outcome unchanged. -/
theorem resolve_first_records_subsequent_raise (st : ShutdownState)
    (h : st.timeout_deferred.called = false) :
    ((kill_timeout st).2 = Option.none ∧
      (kill_timeout st).1.timeout_deferred.result = Option.some true) ∧
    (st.running_reqs = ∅ →
      (kill_if_requests_done st).2 = Option.none ∧
      (kill_if_requests_done st).1.timeout_deferred.result =
        Option.some true) ∧
    (∀ st2 : ShutdownState, st2.timeout_deferred.called = true →
      (kill_timeout st2).2 = Option.some PyError.alreadyCalledError ∧
      (kill_timeout st2).1.timeout_deferred = st2.timeout_deferred ∧
      (st2.running_reqs = ∅ →
        (kill_if_requests_done st2).2 =
          Option.some PyError.alreadyCalledError ∧
        (kill_if_requests_done st2).1.timeout_deferred =
          st2.timeout_deferred)) := by
  refine ⟨?_, ?_, ?_⟩
  · constructor <;> simp [kill_timeout, logMsg, Deferred.callback, h]
  · intro he
    constructor <;>
      simp [kill_if_requests_done, he, logMsg, Deferred.callback, h]
  · intro st2 h2
    refine ⟨?_, ?_, fun he2 => ?_⟩
    · simp [kill_timeout, logMsg, Deferred.callback, h2]
    · simp [kill_timeout, logMsg, Deferred.callback, h2]
    · constructor <;>
        simp [kill_if_requests_done, he2, logMsg, Deferred.callback, h2]

/-- C1 witness: the amended theorem at a concrete unresolved state. -/
theorem resolve_first_records_witness :
    busyState.timeout_deferred.called = false ∧
    (kill_timeout busyState).2 = Option.none ∧
    (kill_timeout busyState).1.timeout_deferred.result = Option.some true :=
  ⟨by decide,
    (resolve_first_records_subsequent_raise busyState (by decide)).1.1,
    (resolve_first_records_subsequent_raise busyState (by decide)).1.2⟩

/-- C2 (counterexample): leftover scheduled callbacks are not harmless.
With the signal already resolved and two requests still tracked, the poll
recheck does not stop: it reschedules itself.  And after a clean drain
(`shutdown` on an idle tracker) the never-canceled timeout timer raises
`AlreadyCalledError` when it fires — an observable error. -/
theorem c2_leftover_callbacks_not_harmless :
    (runCallback Callback.killIfRequestsDone resolvedBusyState).1.pending =
      [(25, Callback.killIfRequestsDone)] ∧
    (shutdown 7 Deferred.mk0 idleState).1.timeout_deferred.called = true ∧
    (runCallback Callback.killTimeout
      (shutdown 7 Deferred.mk0 idleState).1).2 =
        Option.some PyError.alreadyCalledError := by decide

/-- C2 (amended): after the signal has resolved, leftover callbacks never
change the tracked set or the recorded outcome, but they are not silent
no-ops: a poll recheck that still sees requests reschedules itself
regardless of the resolved signal, and any late resolution attempt — the
never-canceled timer, or a poll recheck finding the set empty — raises
`AlreadyCalledError`. -/
theorem leftover_callbacks_after_resolve (st : ShutdownState)
    (h : st.timeout_deferred.called = true) :
    (st.running_reqs ≠ ∅ →
      (kill_if_requests_done st).2 = Option.none ∧
      (kill_if_requests_done st).1.pending =
        st.pending ++ [(st.now + 5, Callback.killIfRequestsDone)] ∧
      (kill_if_requests_done st).1.timeout_deferred = st.timeout_deferred) ∧
    (st.running_reqs = ∅ →
      (kill_if_requests_done st).2 =
        Option.some PyError.alreadyCalledError ∧
      (kill_if_requests_done st).1.timeout_deferred = st.timeout_deferred) ∧
    (runCallback Callback.killTimeout st).2 =
      Option.some PyError.alreadyCalledError ∧
    (runCallback Callback.killTimeout st).1.timeout_deferred =
      st.timeout_deferred ∧
    (runCallback Callback.killTimeout st).1.running_reqs =
      st.running_reqs ∧
    (runCallback Callback.killIfRequestsDone st).1.running_reqs =
      st.running_reqs := by
  refine ⟨fun hne => ?_, fun he => ?_, ?_, ?_, ?_, ?_⟩
  · refine ⟨?_, ?_, ?_⟩ <;>
      simp [kill_if_requests_done, hne, logMsg, callLater]
  · constructor <;>
      simp [kill_if_requests_done, he, logMsg, Deferred.callback, h]
  · simp [runCallback, kill_timeout, logMsg, Deferred.callback, h]
  · simp [runCallback, kill_timeout, logMsg, Deferred.callback, h]
  · simp [runCallback, kill_timeout, logMsg, Deferred.callback, h]
  · by_cases he : st.running_reqs = ∅ <;>
      simp [runCallback, kill_if_requests_done, he, logMsg, callLater,
        Deferred.callback, h]

/-- C2 witness: the amended theorem at a concrete resolved state with no
requests left. -/
theorem leftover_callbacks_witness :
    resolvedIdleState.timeout_deferred.called = true ∧
    (kill_if_requests_done resolvedIdleState).2 =
      Option.some PyError.alreadyCalledError ∧
    (runCallback Callback.killTimeout resolvedIdleState).2 =
      Option.some PyError.alreadyCalledError :=
  ⟨by decide,
    ((leftover_callbacks_after_resolve resolvedIdleState (by decide)).2.1
      (by decide)).1,
    (leftover_callbacks_after_resolve resolvedIdleState (by decide)).2.2.1⟩

/-- C3 (counterexample): unregistering an identifier that is absent from
the tracked set raises `KeyError` (`set.remove`), instead of not
raising. -/
theorem c3_remove_absent_raises :
    (remove_req idleState 7).2 = Option.some PyError.keyError := by decide

/-- C3 (amended): `remove_req` removes a present identifier, decreasing
the size by exactly one — the size, a finite-set cardinality, can never
become negative; on an absent identifier it raises `KeyError` and leaves
the state unchanged. -/
theorem remove_req_spec (st : ShutdownState) (req_hash : Nat) :
    (req_hash ∈ st.running_reqs →
      (remove_req st req_hash).2 = Option.none ∧
      (remove_req st req_hash).1.running_reqs =
        st.running_reqs.erase req_hash ∧
      (remove_req st req_hash).1.running_reqs.card + 1 =
        st.running_reqs.card) ∧
    (req_hash ∉ st.running_reqs →
      (remove_req st req_hash).2 = Option.some PyError.keyError ∧
      (remove_req st req_hash).1 = st) := by
  constructor
  · intro hm
    have hpos : 0 < st.running_reqs.card :=
      Finset.card_pos.mpr ⟨req_hash, hm⟩
    refine ⟨?_, ?_, ?_⟩ <;>
      simp [remove_req, set_remove, hm]
    omega
  · intro hm
    constructor <;> simp [remove_req, set_remove, hm]

/-- C3 witness: the amended theorem at concrete present and absent
identifiers. -/
theorem remove_req_spec_witness :
    (3 ∈ busyState.running_reqs ∧ (remove_req busyState 3).2 = Option.none) ∧
    (7 ∉ busyState.running_reqs ∧
      (remove_req busyState 7).2 = Option.some PyError.keyError) :=
  ⟨⟨by decide, ((remove_req_spec busyState 3).1 (by decide)).1⟩,
    ⟨by decide, ((remove_req_spec busyState 7).2 (by decide)).1⟩⟩

/-- C4: the `DeferredList` returned by `shutdown` fires exactly when both
the completion signal and the listener-close deferred have fired; in
particular shutdown completion never happens while the listener close is
still pending, even when the completion signal resolved earlier. -/
theorem shutdown_complete_is_join (st : ShutdownState) :
    (shutdownComplete st = true ↔
      st.timeout_deferred.called = true ∧ st.close_conn.called = true) ∧
    (st.timeout_deferred.called = true → st.close_conn.called = false →
      shutdownComplete st = false) := by
  constructor
  · simp [shutdownComplete, deferredList_fired]
  · intro h1 h2
    simp [shutdownComplete, deferredList_fired, h1, h2]

/-- C4 witness: a state whose signal resolved while the listener close is
still pending is not shutdown-complete. -/
theorem shutdown_complete_is_join_witness :
    resolvedIdleState.timeout_deferred.called = true ∧
    resolvedIdleState.close_conn.called = false ∧
    shutdownComplete resolvedIdleState = false :=
  ⟨by decide, by decide,
    (shutdown_complete_is_join resolvedIdleState).2 (by decide) (by decide)⟩

/-- C5: the shutdown trigger performs the drain check synchronously:
with the tracked set empty the completion signal is resolved right away
and only the timeout timer is left scheduled; otherwise the signal stays
unresolved and a recheck is scheduled 5 seconds ahead.  Every later
recheck repeats the same test: resolve when empty, reschedule 5 seconds
ahead when not. -/
theorem shutdown_immediate_drain_check (timeout : Nat) (d : Deferred)
    (st : ShutdownState) :
    (st.running_reqs = ∅ →
      (shutdown timeout d st).2 = Option.none ∧
      (shutdown timeout d st).1.timeout_deferred.result =
        Option.some true ∧
      (shutdown timeout d st).1.pending =
        st.pending ++ [(st.now + timeout, Callback.killTimeout)]) ∧
    (st.running_reqs ≠ ∅ →
      (shutdown timeout d st).2 = Option.none ∧
      (shutdown timeout d st).1.timeout_deferred.called = false ∧
      (shutdown timeout d st).1.pending =
        st.pending ++ [(st.now + timeout, Callback.killTimeout),
          (st.now + 5, Callback.killIfRequestsDone)]) ∧
    (∀ st2 : ShutdownState, st2.timeout_deferred.called = false →
      (st2.running_reqs = ∅ →
        (kill_if_requests_done st2).2 = Option.none ∧
        (kill_if_requests_done st2).1.timeout_deferred.result =
          Option.some true ∧
        (kill_if_requests_done st2).1.pending = st2.pending) ∧
      (st2.running_reqs ≠ ∅ →
        (kill_if_requests_done st2).1.pending =
          st2.pending ++ [(st2.now + 5, Callback.killIfRequestsDone)] ∧
        (kill_if_requests_done st2).1.timeout_deferred =
          st2.timeout_deferred)) := by
  refine ⟨fun he => ?_, fun hne => ?_, fun st2 h2 => ⟨fun he2 => ?_, fun hne2 => ?_⟩⟩
  · refine ⟨?_, ?_, ?_⟩ <;>
      simp [shutdown, kill_if_requests_done, he, logMsg, callLater,
        Deferred.callback, Deferred.mk0, Deferred.called]
  · refine ⟨?_, ?_, ?_⟩ <;>
      simp [shutdown, kill_if_requests_done, hne, logMsg, callLater,
        Deferred.callback, Deferred.mk0, Deferred.called]
  · refine ⟨?_, ?_, ?_⟩ <;>
      simp [kill_if_requests_done, he2, logMsg, Deferred.callback, h2]
  · constructor <;>
      simp [kill_if_requests_done, hne2, logMsg, callLater]

/-- C5 witness: the drain-check theorem at an empty and at a nonempty
tracker. -/
theorem shutdown_immediate_drain_check_witness :
    idleState.running_reqs = ∅ ∧
    (shutdown 10 Deferred.mk0 idleState).1.timeout_deferred.result =
      Option.some true ∧
    busyState.running_reqs ≠ ∅ ∧
    (shutdown 10 Deferred.mk0 busyState).1.pending =
      [(10, Callback.killTimeout), (5, Callback.killIfRequestsDone)] :=
  ⟨by decide,
    ((shutdown_immediate_drain_check 10 Deferred.mk0 idleState).1
      (by decide)).2.1,
    by decide,
    by simpa [busyState] using
      ((shutdown_immediate_drain_check 10 Deferred.mk0 busyState).2.1
        (by decide)).2.2⟩

/-- C6 (counterexample): registering an identifier already present in the
tracked set is silently accepted — no error is reported and the set is
unchanged. -/
theorem c6_duplicate_register_accepted :
    (request_factory busyState 3).2 = Option.none ∧
    (request_factory busyState 3).1.running_reqs =
      busyState.running_reqs := by decide

/-- C6 (amended): registering an identifier never fails; `set.add` of an
already-present identifier is a silent no-op on the tracked set. -/
theorem request_factory_never_fails (st : ShutdownState) (req_hash : Nat) :
    (request_factory st req_hash).2 = Option.none ∧
    (request_factory st req_hash).1.running_reqs =
      insert req_hash st.running_reqs ∧
    (req_hash ∈ st.running_reqs →
      (request_factory st req_hash).1.running_reqs = st.running_reqs) := by
  refine ⟨rfl, rfl, fun hm => ?_⟩
  simp [request_factory, set_add, Finset.insert_eq_self.mpr hm]

/-- C6 witness: the amended theorem at a concrete duplicate
registration. -/
theorem request_factory_never_fails_witness :
    3 ∈ busyState.running_reqs ∧
    (request_factory busyState 3).1.running_reqs = busyState.running_reqs :=
  ⟨by decide, (request_factory_never_fails busyState 3).2.2 (by decide)⟩

/-- C7: `kill_timeout`, firing with requests still outstanding, only logs
a warning that carries the outstanding count and resolves the completion
signal; the tracked set, the scheduler queue and the listener deferred are
untouched — no tracked request is removed or canceled. -/
theorem kill_timeout_only_logs_and_resolves (st : ShutdownState)
    (_hreq : st.running_reqs ≠ ∅) :
    (kill_timeout st).1.running_reqs = st.running_reqs ∧
    (kill_timeout st).1.pending = st.pending ∧
    (kill_timeout st).1.close_conn = st.close_conn ∧
    (kill_timeout st).1.log = st.log ++
      [⟨LogLevel.warning, "Timeout reached, canceling %s requests",
        Option.some st.running_reqs.card⟩] ∧
    (st.timeout_deferred.called = false →
      (kill_timeout st).2 = Option.none ∧
      (kill_timeout st).1.timeout_deferred.result = Option.some true) := by
  cases hc : st.timeout_deferred.called <;>
    simp [kill_timeout, logMsg, Deferred.callback, hc]

/-- C7 witness: the frame theorem at a concrete busy state. -/
theorem kill_timeout_only_logs_witness :
    busyState.running_reqs ≠ ∅ ∧
    (kill_timeout busyState).1.running_reqs = busyState.running_reqs ∧
    (kill_timeout busyState).2 = Option.none :=
  ⟨by decide,
    (kill_timeout_only_logs_and_resolves busyState (by decide)).1,
    ((kill_timeout_only_logs_and_resolves busyState (by decide)).2.2.2.2
      (by decide)).1⟩

/-- C8: with the parameter name absent from the query arguments,
`parse_from_request` returns the default whenever it is not `None` — even
on a required parameter — raises a 400 `Error` exactly when the parameter
is required and the default is `None`, and returns `None` otherwise; and
since the constructor rejects only truthy defaults on required
parameters, a required parameter with default `0` is constructible and
never raises for a missing argument. -/
theorem param_missing_argument (p : Param) (name : String)
    (request : Request) (h : request.args name = Option.none) :
    (p.default ≠ PyVal.none →
      p.parse_from_request name request = Except.ok p.default) ∧
    (p.default = PyVal.none → p.required = true →
      p.parse_from_request name request =
        Except.error ⟨BAD_REQUEST, name ++ " is required"⟩) ∧
    (p.default = PyVal.none → p.required = false →
      p.parse_from_request name request = Except.ok PyVal.none) ∧
    (∀ e : WebError, p.parse_from_request name request = Except.error e →
      p.required = true ∧ p.default = PyVal.none) ∧
    Param.init true (PyVal.int 0) = Except.ok ⟨true, PyVal.int 0⟩ ∧
    Param.parse_from_request ⟨true, PyVal.int 0⟩ name request =
      Except.ok (PyVal.int 0) := by
  refine ⟨fun hd => ?_, fun hd hr => ?_, fun hd hr => ?_, fun e he => ?_,
    by rfl, ?_⟩
  · simp [Param.parse_from_request, h, hd]
  · simp [Param.parse_from_request, h, hd, hr]
  · simp [Param.parse_from_request, h, hd, hr]
  · by_cases hd : p.default = PyVal.none
    · by_cases hr : p.required = true
      · exact ⟨hr, hd⟩
      · rw [Bool.not_eq_true] at hr
        exfalso
        simp [Param.parse_from_request, h, hd, hr] at he
    · exfalso
      simp [Param.parse_from_request, h, hd] at he
  · simp [Param.parse_from_request, h]

/-- C8 witness: the theorem at a request with no arguments, for a
required parameter with default `0` and for one with default `None`. -/
theorem param_missing_argument_witness :
    emptyRequest.args "q" = Option.none ∧
    Param.parse_from_request ⟨true, PyVal.int 0⟩ "q" emptyRequest =
      Except.ok (PyVal.int 0) ∧
    Param.parse_from_request ⟨true, PyVal.none⟩ "q" emptyRequest =
      Except.error ⟨BAD_REQUEST, "q is required"⟩ :=
  ⟨rfl,
    (param_missing_argument ⟨true, PyVal.int 0⟩ "q" emptyRequest
      rfl).2.2.2.2.2,
    (param_missing_argument ⟨true, PyVal.none⟩ "q" emptyRequest rfl).2.1
      rfl rfl⟩

/-- C9: on version byte strings of dot-separated decimal integers,
`VersionParam.parse` returns exactly the tuple of integer components, and
the order of the returned tuples (lexicographic with length tie-break,
Python tuple order) coincides with the componentwise, length-breaking
numeric order of the versions; in particular
`parse("5.9") < parse("5.10")`. -/
theorem versionParam_parse_order (ns ms : List (List Char))
    (hns : VersionChars ns) (hms : VersionChars ms) :
    VersionParam.parse (renderVersionChars ns) =
      Except.ok (versionValue ns) ∧
    VersionParam.parse (renderVersionChars ms) =
      Except.ok (versionValue ms) ∧
    (List.Lex (fun x y : Int => x < y) (versionValue ns) (versionValue ms) ↔
      numericVersionLt (ns.map digitsVal) (ms.map digitsVal)) ∧
    VersionParam.parse "5.9" = Except.ok [5, 9] ∧
    VersionParam.parse "5.10" = Except.ok [5, 10] ∧
    List.Lex (fun x y : Int => x < y) [(5 : Int), 9] [(5 : Int), 10] := by
  refine ⟨versionParse_render ns hns, versionParse_render ms hms, ?_,
    by rfl, by rfl, ?_⟩
  · rw [versionValue_eq_map, versionValue_eq_map]
    exact lex_intCast_iff _ _
  · exact List.Lex.cons (List.Lex.rel (by norm_num))

/-- C9 witness: the theorem at the concrete versions `12.3` and `4`. -/
theorem versionParam_parse_order_witness :
    VersionChars [['1', '2'], ['3']] ∧ VersionChars [['4']] ∧
    VersionParam.parse (renderVersionChars [['1', '2'], ['3']]) =
      Except.ok (versionValue [['1', '2'], ['3']]) ∧
    VersionParam.parse "5.9" = Except.ok [5, 9] :=
  ⟨by decide, by decide,
    (versionParam_parse_order [['1', '2'], ['3']] [['4']] (by decide)
      (by decide)).1,
    (versionParam_parse_order [['1', '2'], ['3']] [['4']] (by decide)
      (by decide)).2.2.2.1⟩

/-- C10: `BoolParam.parse` returns `True` exactly on the decoded string
`"true"`, `False` exactly on `"false"`, and raises a 400 `Error` on every
other input. -/
theorem boolParam_parse_exact (s : String) :
    (BoolParam.parse s = Except.ok true ↔ s = "true") ∧
    (BoolParam.parse s = Except.ok false ↔ s = "false") ∧
    (s ≠ "true" → s ≠ "false" →
      BoolParam.parse s = Except.error
        ⟨BAD_REQUEST, "Boolean parameter must be true or false"⟩) := by
  by_cases h1 : s = "false"
  · subst h1
    refine ⟨?_, ?_, ?_⟩ <;> simp [BoolParam.parse]
  · by_cases h2 : s = "true"
    · subst h2
      refine ⟨?_, ?_, ?_⟩ <;> simp [BoolParam.parse]
    · refine ⟨?_, ?_, fun _ _ => ?_⟩ <;> simp [BoolParam.parse, h1, h2]

/-- C10 witness: the parse theorem evaluated at `"true"`, `"false"` and a
third string. -/
theorem boolParam_parse_exact_witness :
    BoolParam.parse "true" = Except.ok true ∧
    BoolParam.parse "false" = Except.ok false ∧
    BoolParam.parse "maybe" = Except.error
      ⟨BAD_REQUEST, "Boolean parameter must be true or false"⟩ :=
  ⟨(boolParam_parse_exact "true").1.mpr rfl,
    (boolParam_parse_exact "false").2.1.mpr rfl,
    (boolParam_parse_exact "maybe").2.2 (by decide) (by decide)⟩

end Retwist
